import Mathlib

/-!
Verification of the P2P dice-duel client (`socketService.ts` v14 plus the
React `App` component).  Each definition below is a shallow embedding of a
function of the source; theorems settle the specification's claims.
-/

namespace DiceRoll

/-- A player entry as built by the service (`Player` in `types`). -/
structure Player where
  id : String
  name : String
  score : Nat
  isSelf : Bool
deriving Repr, DecidableEq

/-- The logged-in user (`currentUser` field): `{ id, name }`. -/
structure User where
  id : String
  name : String
deriving Repr, DecidableEq

/-- JavaScript truthiness of a nullable string: `null`/`undefined` and the
empty string are falsy, every other string truthy. -/
def jsTruthyStr : Option String → Bool
  | none => false
  | some s => !s.isEmpty

/-! ### Authoritative game loop: one round (`runGameLoop`, socketService.ts:327-346)

`Math.floor(Math.random() * 6) + 1` with `Math.random()` drawing from
`[0,1)`; we model the random draw as a rational in `[0,1)`. -/

/-- One die roll: `Math.floor(q * 6) + 1` for a random draw `q ∈ [0,1)`. -/
def rollDie (q : ℚ) : ℤ := ⌊q * 6⌋ + 1

/-- Winner/tie decision of `runGameLoop`:
`if (p1Roll > p2Roll) winnerId = p1.id; else if (p2Roll > p1Roll)
winnerId = p2.id; else newRound = true;`.  Returns `(winnerId, newRound)`. -/
def roundOutcome (p1id p2id : String) (a b : ℤ) : Option String × Bool :=
  if a > b then (some p1id, false)
  else if b > a then (some p2id, false)
  else (none, true)

/-! ### Room code codec (`createHost` line 113, `handleHostMessage` line 315)

Encoding is `ID_PREFIX + shortCode`; decoding is
`peerId.replace(ID_PREFIX, '')`, i.e. erasing the first occurrence of the
namespace tag.  Strings are modelled as `List Char`. -/

/-- The versioned namespace tag `'cube-v14-'`. -/
def NAMESPACE_TAG : List Char := "cube-v14-".data

/-- `encode`: the full peer id is the namespace tag followed by the code. -/
def encodeRoomCode (c : List Char) : List Char := NAMESPACE_TAG ++ c

/-- JavaScript `String.prototype.replace(needle, '')`: erase the first
occurrence of `needle` (a plain string pattern replaces only once). -/
def eraseFirstOccur (needle : List Char) : List Char → List Char
  | [] => []
  | c :: rest =>
    if needle.isPrefixOf (c :: rest) then (c :: rest).drop needle.length
    else c :: eraseFirstOccur needle rest

/-- `decode`: `fullId.replace(ID_PREFIX, '')`. -/
def decodeRoomCode (s : List Char) : List Char := eraseFirstOccur NAMESPACE_TAG s

/-- A valid room code: 4 ASCII digits (generated in `1000..9999`). -/
def ValidRoomCode (c : List Char) : Prop :=
  c.length = 4 ∧ ∀ ch ∈ c, ch.isDigit

instance (c : List Char) : Decidable (ValidRoomCode c) := by
  unfold ValidRoomCode; infer_instance

/-! ### App-side session state and `handleMatchEnd` (App.tsx / part_002:127-146) -/

/-- `RoomStatus` of the UI game state. -/
inductive RoomStatus where
  | PENDING
  | ACTIVE
  | COMPLETE
deriving Repr, DecidableEq

/-- The React `GameState` held by `App`. -/
structure GameState where
  roomId : Option String
  status : RoomStatus
  players : List Player
  roundWinnerId : Option String
  isRolling : Bool
  message : Option String
deriving Repr, DecidableEq

/-- `handleMatchEnd` of `App`: guard
`prev.status === COMPLETE && prev.roundWinnerId && !data.winnerId` keeps the
previous state; otherwise the state becomes `COMPLETE` with the incoming
winner and message `'GAME OVER'`. -/
def handleMatchEnd (prev : GameState) (winnerId : Option String) : GameState :=
  if prev.status = RoomStatus.COMPLETE ∧ jsTruthyStr prev.roundWinnerId ∧
      ¬ jsTruthyStr winnerId then
    prev
  else
    { prev with
      status := RoomStatus.COMPLETE
      roundWinnerId := winnerId
      message := some "GAME OVER" }

/-! ### Connection-manager service state (`P2PSocketService` fields)

Timer handles and connection/peer objects are modelled by `Nat` ids.  The
set of still-pending timers lives outside the service state (the JS event
loop); `clearTimeout` on an already-fired or already-cleared handle is a
no-op, exactly as in JS. -/

/-- The mutable fields of `P2PSocketService` that teardown touches, together
with `currentUser`/`isHost` used by the entry guards. -/
structure SvcState where
  currentUser : Option User
  isHost : Bool
  peerId : Option (List Char)
  gameLoopTimeout : Option Nat
  connectionTimeout : Option Nat
  conn : Option Nat
  peer : Option Nat
  players : List Player
deriving Repr, DecidableEq

/-- `clearTimeout(handle)`: removes the handle from the pending-timer set;
a stale or null handle leaves the set untouched. -/
def clearTimeoutJS (pending : List Nat) : Option Nat → List Nat
  | none => pending
  | some h => pending.filter (fun t => t ≠ h)

/-- Externally visible teardown calls made by `disconnect`. -/
inductive TeardownAct where
  | closeConn (h : Nat)
  | destroyPeer (h : Nat)
deriving Repr, DecidableEq

/-- `disconnect` (socketService.ts:231-244): `stopGameLoop()` clears the
game-loop timer, then the connection timer is cleared, `conn.close()` and
`peer.destroy()` are called when present, and `conn`, `peer`, `players` are
reset.  The timer-handle fields themselves are never nulled by the source.
Returns the new service state, the new pending-timer set, and the list of
close/destroy calls made. -/
def disconnect (s : SvcState) (pending : List Nat) :
    SvcState × List Nat × List TeardownAct :=
  let pending1 := clearTimeoutJS pending s.gameLoopTimeout
  let pending2 := clearTimeoutJS pending1 s.connectionTimeout
  let acts :=
    (s.conn.toList.map TeardownAct.closeConn) ++
    (s.peer.toList.map TeardownAct.destroyPeer)
  ({ s with conn := none, peer := none, players := [] }, pending2, acts)

/-- A service state with no prior connection attempt (fresh instance before
`createHost`/`joinHost` ran): no timers, no connection, no peer. -/
def freshState (u : Option User) : SvcState :=
  { currentUser := u, isHost := false, peerId := none, gameLoopTimeout := none,
    connectionTimeout := none, conn := none, peer := none, players := [] }

/-! ### Entry points `createHost` / `joinHost` (socketService.ts:107-123, 166-182)

Only the synchronous body is modelled here (everything that runs before the
first asynchronous callback); the attached event handlers are modelled as
separate step machines below. -/

/-- Side effects of the synchronous part of `createHost`/`joinHost`. -/
inductive MgrAct where
  | teardown (a : TeardownAct)
  | newPeerWithId (fullId : List Char)
  | newPeerAuto
  | startTimer (h : Nat) (ms : Nat)
deriving Repr, DecidableEq

/-- `Math.floor(1000 + Math.random() * 9000)` — the generated 4-digit code
(as a number) for a random draw `q ∈ [0,1)`. -/
def genShortCode (q : ℚ) : ℤ := ⌊1000 + q * 9000⌋

/-- JavaScript `String.prototype.trim`: strip leading and trailing
whitespace. -/
def jsTrim (s : List Char) : List Char :=
  ((s.dropWhile Char.isWhitespace).reverse.dropWhile Char.isWhitespace).reverse

/-- The global guest-join timeout of `joinHost`: `setTimeout(..., 15000)`. -/
def GLOBAL_JOIN_TIMEOUT_MS : Nat := 15000

/-- `createHost` synchronous body: `if (!this.currentUser) return;` then
`this.disconnect()`, `this.isHost = true`, generate the code, and construct
`new Peer(ID_PREFIX + shortCode, PEER_CONFIG)` (`freshPeer` is the handle the
runtime assigns).  Returns new state, pending timers, and effect list. -/
def createHost (s : SvcState) (pending : List Nat) (q : ℚ) (freshPeer : Nat) :
    SvcState × List Nat × List MgrAct :=
  match s.currentUser with
  | none => (s, pending, [])
  | some _ =>
    let d := disconnect s pending
    let s1 := { d.1 with isHost := true, peer := some freshPeer }
    let fullId := encodeRoomCode (toString (genShortCode q)).data
    (s1, d.2.1, d.2.2.map MgrAct.teardown ++ [MgrAct.newPeerWithId fullId])

/-- `joinHost` line 171: `const fullTargetId = this.ID_PREFIX + shortCode.trim()`. -/
def fullTargetId (shortCode : List Char) : List Char :=
  encodeRoomCode (jsTrim shortCode)

/-- `joinHost` synchronous body: `if (!this.currentUser) return;` then
`this.disconnect()`, `this.isHost = false`, compute the target address
`ID_PREFIX + shortCode.trim()`, construct `new Peer(PEER_CONFIG)`, and arm
the 15 s global connection timeout. -/
def joinHost (s : SvcState) (pending : List Nat) (shortCode : List Char)
    (freshPeer freshTimer : Nat) : SvcState × List Nat × List MgrAct :=
  match s.currentUser with
  | none => (s, pending, [])
  | some _ =>
    let d := disconnect s pending
    let _target := fullTargetId shortCode
    let s1 := { d.1 with
      isHost := false
      peer := some freshPeer
      connectionTimeout := some freshTimer }
    (s1, freshTimer :: d.2.1,
     d.2.2.map MgrAct.teardown ++
       [MgrAct.newPeerAuto, MgrAct.startTimer freshTimer GLOBAL_JOIN_TIMEOUT_MS])

/-! ### Guest-side join handlers (socketService.ts:184-228)

Events delivered to the handlers `joinHost` installs: the peer's `open`
event (which issues the single `connect` call), the data connection's
`open` event, a peer `error` event, and the firing of the armed global
timeout.  A timeout fires only while still pending. -/

/-- External events driving the guest join attempt. -/
inductive GuestEvent where
  | peerOpen
  | connOpen
  | peerError (t : String)
  | timeoutFire (h : Nat)
deriving Repr, DecidableEq

/-- Observable record of a guest join run. -/
structure GuestRun where
  svc : SvcState
  pending : List Nat
  connectCalls : Nat
  joinRequestsSent : Nat
  connectErrors : List String
deriving Repr, DecidableEq

/-- The guest `peer.on('error')` handler's message (lines 222-226). -/
def guestErrorMessage (t : String) : String :=
  if t = "peer-unavailable" then "Room not found. Check the ID."
  else "Connection failed: " ++ t

/-- The `connectionTimeout` callback's message (line 180). -/
def guestTimeoutMessage : String :=
  "Connection timed out. Room ID might be wrong or Host offline."

/-- One step of the guest join handlers:
* `peerOpen`: `this.conn = this.peer.connect(fullTargetId)` — the single
  connect call of the attempt;
* `connOpen`: clear the global timeout, install handlers, send
  `JOIN_REQUEST`;
* `peerError t`: clear the global timeout, surface a `CONNECT_ERROR`, and
  `disconnect()`;
* `timeoutFire h`: if timer `h` is still pending, it fires — surface the
  timeout `CONNECT_ERROR` and `disconnect()`. -/
def guestStep (r : GuestRun) (e : GuestEvent) : GuestRun :=
  match e with
  | .peerOpen =>
    { r with
      connectCalls := r.connectCalls + 1
      svc := { r.svc with conn := some (r.connectCalls + 1) } }
  | .connOpen =>
    { r with
      pending := clearTimeoutJS r.pending r.svc.connectionTimeout
      joinRequestsSent := r.joinRequestsSent + 1 }
  | .peerError t =>
    let pending1 := clearTimeoutJS r.pending r.svc.connectionTimeout
    let d := disconnect r.svc pending1
    { r with
      svc := d.1
      pending := d.2.1
      connectErrors := r.connectErrors ++ [guestErrorMessage t] }
  | .timeoutFire h =>
    if h ∈ r.pending then
      let pending1 := r.pending.filter (fun t => t ≠ h)
      let d := disconnect r.svc pending1
      { r with
        svc := d.1
        pending := d.2.1
        connectErrors := r.connectErrors ++ [guestTimeoutMessage] }
    else r

/-- A whole guest join: run `joinHost` from a fresh logged-in state, then
feed the external events to the handlers. -/
def guestJoinRun (u : User) (shortCode : List Char) (es : List GuestEvent) :
    GuestRun :=
  let j := joinHost (freshState (some u)) [] shortCode 0 0
  es.foldl guestStep
    { svc := j.1, pending := j.2.1, connectCalls := 0,
      joinRequestsSent := 0, connectErrors := [] }

/-! ### Host-side peer handlers (socketService.ts:125-161)

The handlers `createHost` installs: peer `open` (publishes the room),
inbound `connection` (bind the first, refuse extras while the bound one is
open), and peer `error` (surface a typed message, with **no** regeneration
or retry). -/

/-- External events driving the host. `incomingConn` carries the new
connection's handle and the value the check `this.conn.open` evaluates to
for the currently bound connection. -/
inductive HostEvent where
  | opened (id : List Char)
  | incomingConn (c : Nat) (boundIsOpen : Bool)
  | peerError (t : String)
deriving Repr, DecidableEq

/-- Observable record of a host run. -/
structure HostRun where
  svc : SvcState
  pending : List Nat
  codesGenerated : Nat
  peersCreated : Nat
  surfacedErrors : List String
  rejectedConns : List Nat
  matchCreatedEvents : Nat
deriving Repr, DecidableEq

/-- The host `peer.on('error')` handler's message (lines 152-161). -/
def hostErrorMessage (t : String) : String :=
  if t = "unavailable-id" then "ID Collision. Try again."
  else if t = "network" then "Network error. Check connection."
  else "Host Error: " ++ t

/-- One step of the host handlers:
* `opened id`: record `peerId`, seed `players` with the host entry, emit
  `MATCH_CREATED`;
* `incomingConn c bOpen`: `if (this.conn && this.conn.open)` close the new
  connection and return, else bind it;
* `peerError t`: surface the typed error message — nothing else: no code
  regeneration, no new peer, no retry. -/
def hostStep (u : User) (r : HostRun) (e : HostEvent) : HostRun :=
  match e with
  | .opened id =>
    { r with
      svc := { r.svc with
        peerId := some id
        players := [{ id := u.id, name := u.name, score := 0, isSelf := true }] }
      matchCreatedEvents := r.matchCreatedEvents + 1 }
  | .incomingConn c bOpen =>
    match r.svc.conn with
    | some _ =>
      if bOpen then { r with rejectedConns := r.rejectedConns ++ [c] }
      else { r with svc := { r.svc with conn := some c } }
    | none => { r with svc := { r.svc with conn := some c } }
  | .peerError t =>
    { r with surfacedErrors := r.surfacedErrors ++ [hostErrorMessage t] }

/-- A whole host run: `createHost` from a fresh logged-in state (one code
generated, one peer created), then the external events. -/
def hostCreateRun (u : User) (q : ℚ) (es : List HostEvent) : HostRun :=
  es.foldl (hostStep u)
    { svc := (createHost (freshState (some u)) [] q 0).1
      pending := (createHost (freshState (some u)) [] q 0).2.1
      codesGenerated := 1, peersCreated := 1,
      surfacedErrors := [], rejectedConns := [], matchCreatedEvents := 0 }

/-! ### Host handshake: `handleHostMessage` JOIN_REQUEST branch
(socketService.ts:278-324) -/

/-- Effects of handling a `JOIN_REQUEST` on the host. -/
inductive JoinEff where
  | sendConnectError (m : String)
  | scheduleClose (ms : Nat)
  | stopLoop
  | sendMatchStart (ps : List Player)
  | triggerMatchStart (ps : List Player)
  | scheduleGameLoop (ms : Nat)
deriving Repr, DecidableEq

/-- The host rejection message for a nickname collision (line 290). -/
def sameNicknameMessage : String :=
  "Cannot play against a user with the same nickname."

/-- `handleHostMessage` for `msg.type === 'JOIN_REQUEST'`: compare the
guest's name against `this.currentUser?.name`; on a match send a
`CONNECT_ERROR` and schedule `conn.close()` after 500 ms (no `MATCH_START`
ever); otherwise stop any loop timer, bind `players = [hostPlayer, guest]`,
send and locally trigger `MATCH_START`, and schedule the game loop. -/
def handleJoinRequest (hostUser : Option User) (players : List Player)
    (guestId guestName : String) : List Player × List JoinEff :=
  if some guestName = hostUser.map User.name then
    (players, [JoinEff.sendConnectError sameNicknameMessage,
               JoinEff.scheduleClose 500])
  else
    let guestPlayer : Player :=
      { id := guestId, name := guestName, score := 0, isSelf := false }
    let newPlayers := (players.find? (·.isSelf)).toList ++ [guestPlayer]
    let localPlayers := newPlayers.map fun p =>
      { p with isSelf := some p.id = hostUser.map User.id }
    (newPlayers,
     [JoinEff.stopLoop, JoinEff.sendMatchStart newPlayers,
      JoinEff.triggerMatchStart localPlayers, JoinEff.scheduleGameLoop 2000])

/-! ### `runGameLoop` effects and win recording
(socketService.ts:327-363, 369-385, 454-469) -/

/-- The `DiceResultPayload` built by `runGameLoop` (`rolls` holds exactly
one value per player, keyed host first). -/
structure DiceResult where
  p1id : String
  p2id : String
  p1Roll : ℤ
  p2Roll : ℤ
  winnerId : Option String
  newRound : Bool
deriving Repr, DecidableEq

/-- Effects of one `runGameLoop` invocation. -/
inductive LoopEff where
  | sendDiceResult (r : DiceResult)
  | triggerDiceResult (r : DiceResult)
  | recordWinCall (w : Option String)
  | scheduleMatchEnd (ms : Nat) (w : Option String)
  | scheduleReRoll (ms : Nat)
deriving Repr, DecidableEq

/-- Whether a `LoopEff` is a `checkAndRecordWin` invocation. -/
def LoopEff.isRecordWinCall : LoopEff → Bool
  | .recordWinCall _ => true
  | _ => false

/-- `runGameLoop`: no-op unless host with two players; roll both dice,
decide the outcome, send and trigger `DICE_RESULT`; on a truthy winner call
`checkAndRecordWin` and schedule `MATCH_END` after 3500 ms, otherwise
schedule a re-roll after 4000 ms. -/
def runGameLoopEffects (isHost : Bool) (players : List Player) (q1 q2 : ℚ) :
    List LoopEff :=
  if ¬ isHost ∨ players.length < 2 then []
  else
    match players with
    | p1 :: p2 :: _ =>
      let p1Roll := rollDie q1
      let p2Roll := rollDie q2
      let wt := roundOutcome p1.id p2.id p1Roll p2Roll
      let result : DiceResult :=
        { p1id := p1.id, p2id := p2.id, p1Roll := p1Roll, p2Roll := p2Roll,
          winnerId := wt.1, newRound := wt.2 }
      if jsTruthyStr wt.1 then
        [LoopEff.sendDiceResult result, LoopEff.triggerDiceResult result,
         LoopEff.recordWinCall wt.1, LoopEff.scheduleMatchEnd 3500 wt.1]
      else
        [LoopEff.sendDiceResult result, LoopEff.triggerDiceResult result,
         LoopEff.scheduleReRoll 4000]
    | _ => []

/-- A persisted user record of the LocalStorage DB (`UserRecord`); `wins`
may be absent in pre-migration records. -/
structure UserRecord where
  id : String
  password : String
  wins : Option Nat
deriving Repr, DecidableEq

/-- The LocalStorage DB: username-keyed records. -/
abbrev Db := List (String × UserRecord)

/-- `db[username]` lookup. -/
def dbFind (db : Db) (username : String) : Option UserRecord :=
  match db with
  | [] => none
  | (k, r) :: rest => if k = username then some r else dbFind rest username

/-- Set `db[username].wins = w` on the existing record. -/
def dbSetWins (db : Db) (username : String) (w : Nat) : Db :=
  match db with
  | [] => []
  | (k, r) :: rest =>
    if k = username then (k, { r with wins := some w }) :: dbSetWins rest username w
    else (k, r) :: dbSetWins rest username w

/-- `checkAndRecordWin` (socketService.ts:454-469): return unless both a
logged-in user and a truthy winner id; if the local user is the winner and
has a DB record, bump `wins = (wins || 0) + 1`. -/
def checkAndRecordWin (currentUser : Option User) (winnerId : Option String)
    (db : Db) : Db :=
  match currentUser with
  | none => db
  | some u =>
    if ¬ jsTruthyStr winnerId then db
    else if some u.id = winnerId then
      match dbFind db u.name with
      | some rec0 => dbSetWins db u.name (rec0.wins.getD 0 + 1)
      | none => db
    else db

/-- Message kinds of the wire protocol (`SocketEvents` values plus the
literal `'JOIN_REQUEST'`). -/
inductive MsgType where
  | JOIN_REQUEST
  | MATCH_START
  | MATCH_END
  | DICE_RESULT
  | CONNECT_ERROR
  | other (s : String)
deriving Repr, DecidableEq

/-- Effects of `handleGuestMessage`. -/
inductive GuestMsgEff where
  | recordWinCall (w : Option String)
  | triggerEvt (t : MsgType)
deriving Repr, DecidableEq

/-- Whether a `GuestMsgEff` is a `checkAndRecordWin` invocation. -/
def GuestMsgEff.isRecordWinCall : GuestMsgEff → Bool
  | .recordWinCall _ => true
  | _ => false

/-- `handleGuestMessage` (socketService.ts:369-385): `MATCH_START` remaps
`isSelf` and triggers; `MATCH_END` calls `checkAndRecordWin(winnerId)` then
triggers; every other type just triggers its payload. -/
def handleGuestMessage (t : MsgType) (winnerId : Option String) :
    List GuestMsgEff :=
  match t with
  | .MATCH_START => [GuestMsgEff.triggerEvt t]
  | .MATCH_END => [GuestMsgEff.recordWinCall winnerId, GuestMsgEff.triggerEvt t]
  | _ => [GuestMsgEff.triggerEvt t]

/-- Whether a guest event is the peer `open` event (the only event whose
handler issues a `connect` call). -/
def GuestEvent.isPeerOpen : GuestEvent → Bool
  | .peerOpen => true
  | _ => false

/-- The error message (if any) that a host event's handler surfaces. -/
def hostErrorOf : HostEvent → Option String
  | .peerError t => some (hostErrorMessage t)
  | _ => none

/-! ## Helper lemmas -/

theorem isPrefixOf_append_self (l t : List Char) : l.isPrefixOf (l ++ t) = true := by
  induction l with
  | nil => simp [List.isPrefixOf]
  | cons a as ih => simp [List.isPrefixOf, ih]

theorem eraseFirstOccur_append (l t : List Char) (h : l ≠ []) :
    eraseFirstOccur l (l ++ t) = t := by
  cases l with
  | nil => exact absurd rfl h
  | cons a as =>
    show eraseFirstOccur (a :: as) ((a :: as) ++ t) = t
    rw [List.cons_append, eraseFirstOccur]
    rw [← List.cons_append, isPrefixOf_append_self]
    simp

theorem rollDie_range (q : ℚ) (h0 : 0 ≤ q) (h1 : q < 1) :
    1 ≤ rollDie q ∧ rollDie q ≤ 6 := by
  unfold rollDie
  have hlo : (0 : ℤ) ≤ ⌊q * 6⌋ :=
    Int.floor_nonneg.mpr (mul_nonneg h0 (by norm_num))
  have hhi : ⌊q * 6⌋ < (6 : ℤ) := by
    apply Int.floor_lt.mpr
    calc q * 6 < 1 * 6 := by
          exact mul_lt_mul_of_pos_right h1 (by norm_num)
      _ = 6 := by norm_num

  omega

theorem roundOutcome_spec (p1id p2id : String) (a b : ℤ) :
    ((roundOutcome p1id p2id a b).2 = true ↔ a = b) ∧
    ((roundOutcome p1id p2id a b).2 = true ↔ (roundOutcome p1id p2id a b).1 = none) ∧
    (a > b → (roundOutcome p1id p2id a b).1 = some p1id) ∧
    (b > a → (roundOutcome p1id p2id a b).1 = some p2id) := by
  unfold roundOutcome
  split_ifs with hab hba
  · refine ⟨?_, ?_, ?_, ?_⟩ <;> simp <;> omega
  · refine ⟨?_, ?_, ?_, ?_⟩ <;> simp <;> omega
  · refine ⟨?_, ?_, ?_, ?_⟩ <;> simp <;> omega

/-! ## Claims -/

/-- C1: every round the host game loop produces has both rolls in `[1,6]`,
and the tie flag (`newRound`) is true iff the rolls are equal iff
`winnerId` is null; otherwise `winnerId` is the strictly higher roller's
id, never the lower roller's. -/
theorem C1_round_result_correct (p1id p2id : String) (q1 q2 : ℚ)
    (h1 : 0 ≤ q1) (h2 : q1 < 1) (h3 : 0 ≤ q2) (h4 : q2 < 1) :
    (1 ≤ rollDie q1 ∧ rollDie q1 ≤ 6) ∧
    (1 ≤ rollDie q2 ∧ rollDie q2 ≤ 6) ∧
    ((roundOutcome p1id p2id (rollDie q1) (rollDie q2)).2 = true ↔
      rollDie q1 = rollDie q2) ∧
    ((roundOutcome p1id p2id (rollDie q1) (rollDie q2)).2 = true ↔
      (roundOutcome p1id p2id (rollDie q1) (rollDie q2)).1 = none) ∧
    (rollDie q1 > rollDie q2 →
      (roundOutcome p1id p2id (rollDie q1) (rollDie q2)).1 = some p1id) ∧
    (rollDie q2 > rollDie q1 →
      (roundOutcome p1id p2id (rollDie q1) (rollDie q2)).1 = some p2id) := by
  obtain ⟨s1, s2, s3, s4⟩ := roundOutcome_spec p1id p2id (rollDie q1) (rollDie q2)
  exact ⟨rollDie_range q1 h1 h2, rollDie_range q2 h3 h4, s1, s2, s3, s4⟩

/-- Witness for C1 at concrete draws `q1 = 0`, `q2 = 1/2`. -/
theorem C1_round_result_correct_witness :
    (1 ≤ rollDie 0 ∧ rollDie 0 ≤ 6) ∧
    (1 ≤ rollDie (1/2) ∧ rollDie (1/2) ≤ 6) ∧
    ((roundOutcome "host" "guest" (rollDie 0) (rollDie (1/2))).2 = true ↔
      rollDie 0 = rollDie (1/2)) ∧
    ((roundOutcome "host" "guest" (rollDie 0) (rollDie (1/2))).2 = true ↔
      (roundOutcome "host" "guest" (rollDie 0) (rollDie (1/2))).1 = none) ∧
    (rollDie 0 > rollDie (1/2) →
      (roundOutcome "host" "guest" (rollDie 0) (rollDie (1/2))).1 = some "host") ∧
    (rollDie (1/2) > rollDie 0 →
      (roundOutcome "host" "guest" (rollDie 0) (rollDie (1/2))).1 = some "guest") :=
  C1_round_result_correct "host" "guest" 0 (1/2) (by norm_num) (by norm_num)
    (by norm_num) (by norm_num)

/-- C4: for every valid 4-digit room code `c`, decoding the encoded peer
address recovers `c` exactly: `decode(encode(c)) = c`. -/
theorem C4_decode_encode (c : List Char) (_h : ValidRoomCode c) :
    decodeRoomCode (encodeRoomCode c) = c := by
  unfold decodeRoomCode encodeRoomCode
  exact eraseFirstOccur_append _ _ (by decide)

/-- Witness for C4 at the concrete room code `"4521"`. -/
theorem C4_decode_encode_witness :
    decodeRoomCode (encodeRoomCode "4521".data) = "4521".data :=
  C4_decode_encode "4521".data (by decide)

/-- C2: a session in phase `Complete` with a non-null recorded winner is
left unchanged by a subsequent match-end notification carrying a null
winner, and `handleMatchEnd` never produces any phase other than
`Complete` — there is no transition out of `Complete`. -/
theorem C2_complete_terminal :
    (∀ prev w, prev.status = RoomStatus.COMPLETE → prev.roundWinnerId = some w →
       w ≠ "" → handleMatchEnd prev none = prev) ∧
    (∀ prev d, (handleMatchEnd prev d).status = RoomStatus.COMPLETE) := by
  constructor
  · intro prev w hst hw hne
    unfold handleMatchEnd
    rw [if_pos]
    refine ⟨hst, ?_, by simp [jsTruthyStr]⟩
    simp only [hw, jsTruthyStr, Bool.not_eq_true']
    rw [Bool.eq_false_iff]
    intro hx
    exact hne ((String.isEmpty_iff w).mp hx)
  · intro prev d
    unfold handleMatchEnd
    split_ifs with h
    · exact h.1
    · rfl

/-- Witness for C2 at a concrete completed state. -/
theorem C2_complete_terminal_witness :
    handleMatchEnd
        { roomId := some "4521", status := RoomStatus.COMPLETE, players := [],
          roundWinnerId := some "u1", isRolling := false,
          message := some "GAME OVER" } none =
      { roomId := some "4521", status := RoomStatus.COMPLETE, players := [],
        roundWinnerId := some "u1", isRolling := false,
        message := some "GAME OVER" } ∧
    (handleMatchEnd
        { roomId := some "4521", status := RoomStatus.COMPLETE, players := [],
          roundWinnerId := some "u1", isRolling := false,
          message := some "GAME OVER" } (some "u2")).status =
      RoomStatus.COMPLETE :=
  ⟨C2_complete_terminal.1 _ "u1" rfl rfl (by decide),
   C2_complete_terminal.2 _ (some "u2")⟩

theorem clearTimeoutJS_idem (l : List Nat) (h : Option Nat) :
    clearTimeoutJS (clearTimeoutJS l h) h = clearTimeoutJS l h := by
  cases h with
  | none => rfl
  | some t =>
    simp only [clearTimeoutJS, List.filter_filter]
    congr 1
    funext x
    simp

theorem clearTimeoutJS_comm (l : List Nat) (a b : Option Nat) :
    clearTimeoutJS (clearTimeoutJS l a) b = clearTimeoutJS (clearTimeoutJS l b) a := by
  cases a with
  | none => rfl
  | some ta =>
    cases b with
    | none => rfl
    | some tb =>
      simp only [clearTimeoutJS, List.filter_filter]
      congr 1
      funext x
      rw [Bool.and_comm]

/-- C5: `disconnect` is idempotent and total: for every starting state
(including a fresh one with no prior connection attempt) it clears both
pending timers, closes the open connection and destroys the peer when
present, and clears player state; a second consecutive call leaves the
state and pending-timer set unchanged and performs no further close or
destroy calls. -/
theorem C5_disconnect_idempotent :
    (∀ s pending,
       (disconnect (disconnect s pending).1 (disconnect s pending).2.1).1 =
         (disconnect s pending).1 ∧
       (disconnect (disconnect s pending).1 (disconnect s pending).2.1).2.1 =
         (disconnect s pending).2.1 ∧
       (disconnect (disconnect s pending).1 (disconnect s pending).2.1).2.2 = []) ∧
    (∀ s pending,
       (disconnect s pending).1.conn = none ∧
       (disconnect s pending).1.peer = none ∧
       (disconnect s pending).1.players = [] ∧
       (disconnect s pending).2.1 =
         clearTimeoutJS (clearTimeoutJS pending s.gameLoopTimeout)
           s.connectionTimeout ∧
       (disconnect s pending).2.2 =
         s.conn.toList.map TeardownAct.closeConn ++
           s.peer.toList.map TeardownAct.destroyPeer) ∧
    (∀ u pending, disconnect (freshState u) pending = (freshState u, pending, [])) := by
  refine ⟨?_, ?_, ?_⟩
  · intro s pending
    refine ⟨rfl, ?_, rfl⟩
    show clearTimeoutJS
        (clearTimeoutJS
          (clearTimeoutJS (clearTimeoutJS pending s.gameLoopTimeout)
            s.connectionTimeout) s.gameLoopTimeout) s.connectionTimeout =
      clearTimeoutJS (clearTimeoutJS pending s.gameLoopTimeout) s.connectionTimeout
    rw [clearTimeoutJS_comm _ s.connectionTimeout s.gameLoopTimeout,
      clearTimeoutJS_idem, clearTimeoutJS_idem]
  · intro s pending
    exact ⟨rfl, rfl, rfl, rfl, rfl⟩
  · intro u pending
    rfl

/-- C10: while no user is logged in, `createHost` and `joinHost` return
immediately: no endpoint is created, no timer started, no state mutated,
no event emitted. -/
theorem C10_not_logged_in_noop (s : SvcState) (pending : List Nat) (q : ℚ)
    (freshPeer : Nat) (shortCode : List Char) (freshPeer2 freshTimer : Nat)
    (h : s.currentUser = none) :
    createHost s pending q freshPeer = (s, pending, []) ∧
    joinHost s pending shortCode freshPeer2 freshTimer = (s, pending, []) := by
  unfold createHost joinHost
  rw [h]
  exact ⟨rfl, rfl⟩

/-- Witness for C10 at a fresh logged-out state. -/
theorem C10_not_logged_in_noop_witness :
    createHost (freshState none) [] 0 7 = (freshState none, [], []) ∧
    joinHost (freshState none) [] "4521".data 7 9 = (freshState none, [], []) :=
  C10_not_logged_in_noop (freshState none) [] 0 7 "4521".data 7 9 rfl

theorem guestStep_connectCalls (r : GuestRun) (e : GuestEvent) :
    (guestStep r e).connectCalls =
      r.connectCalls + (if GuestEvent.isPeerOpen e then 1 else 0) := by
  cases e with
  | peerOpen => simp [guestStep, GuestEvent.isPeerOpen]
  | connOpen => simp [guestStep, GuestEvent.isPeerOpen]
  | peerError t => simp [guestStep, GuestEvent.isPeerOpen]
  | timeoutFire h =>
    simp only [guestStep, GuestEvent.isPeerOpen, if_neg]
    split <;> simp

theorem guestFold_connectCalls (es : List GuestEvent) (r : GuestRun) :
    (es.foldl guestStep r).connectCalls =
      r.connectCalls + es.countP GuestEvent.isPeerOpen := by
  induction es generalizing r with
  | nil => simp
  | cons e rest ih =>
    rw [List.foldl_cons, ih, List.countP_cons, guestStep_connectCalls]
    omega

/-- C3 counterexample: against a target that never answers (the peer opens,
the data connection never does, the global timeout fires), `joinHost` makes
exactly **one** connect call — not the claimed configured maximum of five
retries — and the surfaced error is the global-timeout message. -/
theorem C3_counterexample :
    (guestJoinRun ⟨"u1", "Alice"⟩ "4521".data
        [GuestEvent.peerOpen, GuestEvent.timeoutFire 0]).connectCalls = 1 ∧
    (guestJoinRun ⟨"u1", "Alice"⟩ "4521".data
        [GuestEvent.peerOpen, GuestEvent.timeoutFire 0]).connectErrors =
      [guestTimeoutMessage] ∧
    ¬ (guestJoinRun ⟨"u1", "Alice"⟩ "4521".data
        [GuestEvent.peerOpen, GuestEvent.timeoutFire 0]).connectCalls = 5 := by
  refine ⟨rfl, rfl, ?_⟩
  intro hfive
  exact absurd hfive (by decide)

/-- C3 amended: `joinHost` performs exactly one `connect` call per peer
`open` event (so a single attempt in a join — there is no per-attempt retry
loop), the single global timeout is 15000 ms, and a `peer-unavailable`
error surfaces the room-not-found message directly. -/
theorem C3_single_attempt_no_retry (u : User) (shortCode : List Char)
    (es : List GuestEvent) :
    (guestJoinRun u shortCode es).connectCalls =
      es.countP GuestEvent.isPeerOpen ∧
    GLOBAL_JOIN_TIMEOUT_MS = 15000 ∧
    (∀ r : GuestRun,
      (guestStep r (GuestEvent.peerError "peer-unavailable")).connectErrors =
        r.connectErrors ++ ["Room not found. Check the ID."]) := by
  refine ⟨?_, rfl, ?_⟩
  · unfold guestJoinRun
    rw [guestFold_connectCalls]
    simp
  · intro r
    simp [guestStep, guestErrorMessage]

theorem hostStep_counts (u : User) (r : HostRun) (e : HostEvent) :
    (hostStep u r e).codesGenerated = r.codesGenerated ∧
    (hostStep u r e).peersCreated = r.peersCreated ∧
    (hostStep u r e).surfacedErrors = r.surfacedErrors ++ (hostErrorOf e).toList := by
  cases e with
  | opened id => simp [hostStep, hostErrorOf]
  | incomingConn c bOpen =>
    simp only [hostStep, hostErrorOf]
    rcases hr : r.svc.conn with _ | c0 <;> simp only [hr]
    · simp
    · split <;> simp
  | peerError t => simp [hostStep, hostErrorOf]

theorem hostFold_counts (u : User) (es : List HostEvent) (r : HostRun) :
    ((es.foldl (hostStep u) r).codesGenerated = r.codesGenerated) ∧
    ((es.foldl (hostStep u) r).peersCreated = r.peersCreated) ∧
    ((es.foldl (hostStep u) r).surfacedErrors =
      r.surfacedErrors ++ es.filterMap hostErrorOf) := by
  induction es generalizing r with
  | nil => simp
  | cons e rest ih =>
    obtain ⟨s1, s2, s3⟩ := hostStep_counts u r e
    obtain ⟨i1, i2, i3⟩ := ih (hostStep u r e)
    rw [List.foldl_cons]
    refine ⟨by rw [i1, s1], by rw [i2, s2], ?_⟩
    rw [i3, s3, List.filterMap_cons]
    cases hq : hostErrorOf e <;> simp

theorem hostCreateRun_counts (u : User) (q : ℚ) (es : List HostEvent) :
    (hostCreateRun u q es).codesGenerated = 1 ∧
    (hostCreateRun u q es).peersCreated = 1 ∧
    (hostCreateRun u q es).surfacedErrors = es.filterMap hostErrorOf := by
  unfold hostCreateRun
  obtain ⟨h1, h2, h3⟩ :=
    hostFold_counts u es
      { svc := (createHost (freshState (some u)) [] q 0).1,
        pending := (createHost (freshState (some u)) [] q 0).2.1,
        codesGenerated := 1, peersCreated := 1, surfacedErrors := [],
        rejectedConns := [], matchCreatedEvents := 0 }
  exact ⟨h1, h2, by simpa using h3⟩

/-- C9 counterexample: when the endpoint open fails with an identity
collision (`'unavailable-id'`), the manager does **not** regenerate a code
and retry — exactly one code was generated and one peer created, and the
error `'ID Collision. Try again.'` is surfaced immediately on the first
collision, contradicting the claimed bounded regenerate-and-retry. -/
theorem C9_counterexample :
    (hostCreateRun ⟨"u1", "Bob"⟩ 0
        [HostEvent.peerError "unavailable-id"]).codesGenerated = 1 ∧
    (hostCreateRun ⟨"u1", "Bob"⟩ 0
        [HostEvent.peerError "unavailable-id"]).surfacedErrors =
      ["ID Collision. Try again."] ∧
    ¬ (2 ≤ (hostCreateRun ⟨"u1", "Bob"⟩ 0
        [HostEvent.peerError "unavailable-id"]).codesGenerated) := by
  obtain ⟨h1, _, h3⟩ :=
    hostCreateRun_counts ⟨"u1", "Bob"⟩ 0 [HostEvent.peerError "unavailable-id"]
  refine ⟨h1, ?_, by rw [h1]; omega⟩
  rw [h3]
  simp [hostErrorOf, hostErrorMessage]

/-- C9 amended: on an `open` failure due to an identity collision the
Connection Manager performs no regeneration and no retry: each `createHost`
call generates exactly one room code and creates exactly one endpoint, and
the collision immediately surfaces the error `'ID Collision. Try again.'`
to the UI, leaving any retry to the user. -/
theorem C9_no_retry_on_collision (u : User) (q : ℚ) (es : List HostEvent) :
    (hostCreateRun u q es).codesGenerated = 1 ∧
    (hostCreateRun u q es).peersCreated = 1 ∧
    (HostEvent.peerError "unavailable-id" ∈ es →
      "ID Collision. Try again." ∈ (hostCreateRun u q es).surfacedErrors) := by
  obtain ⟨h1, h2, h3⟩ := hostCreateRun_counts u q es
  refine ⟨h1, h2, ?_⟩
  intro hmem
  rw [h3]
  rw [List.mem_filterMap]
  exact ⟨HostEvent.peerError "unavailable-id", hmem,
    by simp [hostErrorOf, hostErrorMessage]⟩

/-- Witness for the amended C9 at a concrete collision trace. -/
theorem C9_no_retry_on_collision_witness :
    (hostCreateRun ⟨"u2", "Carol"⟩ 0
        [HostEvent.opened [], HostEvent.peerError "unavailable-id"]).codesGenerated = 1 ∧
    "ID Collision. Try again." ∈
      (hostCreateRun ⟨"u2", "Carol"⟩ 0
        [HostEvent.opened [], HostEvent.peerError "unavailable-id"]).surfacedErrors :=
  ⟨(C9_no_retry_on_collision ⟨"u2", "Carol"⟩ 0
      [HostEvent.opened [], HostEvent.peerError "unavailable-id"]).1,
   (C9_no_retry_on_collision ⟨"u2", "Carol"⟩ 0
      [HostEvent.opened [], HostEvent.peerError "unavailable-id"]).2.2 (by decide)⟩

/-- C8: an inbound connection arriving while the host already holds an open
bound connection is immediately closed (logged as rejected) and everything
else — the bound connection, the session players, the pending timers — is
left unchanged. -/
theorem C8_reject_second_conn (u : User) (r : HostRun) (c c0 : Nat)
    (h : r.svc.conn = some c0) :
    hostStep u r (HostEvent.incomingConn c true) =
      { r with rejectedConns := r.rejectedConns ++ [c] } := by
  simp only [hostStep, h, if_true]

/-- Witness for C8 at a concrete host state holding open connection `5`. -/
theorem C8_reject_second_conn_witness :
    hostStep ⟨"u1", "Bob"⟩
        { svc := { freshState (some ⟨"u1", "Bob"⟩) with conn := some 5 },
          pending := [], codesGenerated := 1, peersCreated := 1,
          surfacedErrors := [], rejectedConns := [], matchCreatedEvents := 1 }
        (HostEvent.incomingConn 9 true) =
      { svc := { freshState (some ⟨"u1", "Bob"⟩) with conn := some 5 },
        pending := [], codesGenerated := 1, peersCreated := 1,
        surfacedErrors := [], rejectedConns := [9], matchCreatedEvents := 1 } :=
  C8_reject_second_conn ⟨"u1", "Bob"⟩ _ 9 5 rfl

/-- C7: a `JOIN_REQUEST` whose display name equals the host's own results in
a typed rejection (`CONNECT_ERROR` send then a scheduled connection close)
and `MATCH_START` is never emitted for that attempt; any request with a
distinct display name is accepted: `MATCH_START` is sent to the guest. -/
theorem C7_same_nickname_rejected (hostUser : User) (players : List Player)
    (guestId guestName : String) :
    (guestName = hostUser.name →
      (handleJoinRequest (some hostUser) players guestId guestName).2 =
        [JoinEff.sendConnectError sameNicknameMessage,
         JoinEff.scheduleClose 500] ∧
      ∀ ps, JoinEff.sendMatchStart ps ∉
          (handleJoinRequest (some hostUser) players guestId guestName).2 ∧
        JoinEff.triggerMatchStart ps ∉
          (handleJoinRequest (some hostUser) players guestId guestName).2) ∧
    (guestName ≠ hostUser.name →
      JoinEff.sendMatchStart
          (handleJoinRequest (some hostUser) players guestId guestName).1 ∈
        (handleJoinRequest (some hostUser) players guestId guestName).2) := by
  constructor
  · intro hEq
    have hg : (handleJoinRequest (some hostUser) players guestId guestName).2 =
        [JoinEff.sendConnectError sameNicknameMessage,
         JoinEff.scheduleClose 500] := by
      unfold handleJoinRequest
      rw [if_pos (by simp [hEq])]
    refine ⟨hg, ?_⟩
    intro ps
    rw [hg]
    simp
  · intro hNe
    unfold handleJoinRequest
    rw [if_neg (by simp [hNe])]
    simp

/-- Witness for C7: rejection of a second `"Alice"`, acceptance of `"Bob"`. -/
theorem C7_same_nickname_rejected_witness :
    (handleJoinRequest (some ⟨"h1", "Alice"⟩)
        [{ id := "h1", name := "Alice", score := 0, isSelf := true }]
        "g1" "Alice").2 =
      [JoinEff.sendConnectError sameNicknameMessage,
       JoinEff.scheduleClose 500] ∧
    JoinEff.sendMatchStart
        (handleJoinRequest (some ⟨"h1", "Alice"⟩)
          [{ id := "h1", name := "Alice", score := 0, isSelf := true }]
          "g1" "Bob").1 ∈
      (handleJoinRequest (some ⟨"h1", "Alice"⟩)
        [{ id := "h1", name := "Alice", score := 0, isSelf := true }]
        "g1" "Bob").2 :=
  ⟨((C7_same_nickname_rejected ⟨"h1", "Alice"⟩
      [{ id := "h1", name := "Alice", score := 0, isSelf := true }]
      "g1" "Alice").1 rfl).1,
   (C7_same_nickname_rejected ⟨"h1", "Alice"⟩
      [{ id := "h1", name := "Alice", score := 0, isSelf := true }]
      "g1" "Bob").2 (by decide)⟩

theorem jsTruthyStr_some (w : String) (h : w ≠ "") :
    jsTruthyStr (some w) = true := by
  simp only [jsTruthyStr, Bool.not_eq_true']
  rw [Bool.eq_false_iff]
  intro hx
  exact h ((String.isEmpty_iff w).mp hx)

theorem rollDie_zero : rollDie 0 = 1 := by
  unfold rollDie
  norm_num

theorem rollDie_half : rollDie (1/2) = 4 := by
  unfold rollDie
  rw [show ((1 : ℚ)/2) * 6 = ((3 : ℤ) : ℚ) by norm_num, Int.floor_intCast]
  norm_num

theorem dbFind_dbSetWins_self (db : Db) (un : String) (w : Nat)
    (r0 : UserRecord) (h : dbFind db un = some r0) :
    dbFind (dbSetWins db un w) un = some { r0 with wins := some w } := by
  induction db with
  | nil => simp [dbFind] at h
  | cons kv rest ih =>
    obtain ⟨k, r⟩ := kv
    by_cases hk : k = un
    · rw [dbFind, if_pos hk] at h
      cases h
      rw [dbSetWins, if_pos hk, dbFind, if_pos hk]
    · rw [dbFind, if_neg hk] at h
      rw [dbSetWins, if_neg hk, dbFind, if_neg hk]
      exact ih h

theorem dbFind_dbSetWins_other (db : Db) (un v : String) (w : Nat)
    (h : v ≠ un) : dbFind (dbSetWins db un w) v = dbFind db v := by
  induction db with
  | nil => rfl
  | cons kv rest ih =>
    obtain ⟨k, r⟩ := kv
    by_cases hk : k = un
    · rw [dbSetWins, if_pos hk, dbFind, dbFind,
        if_neg (by rw [hk]; exact fun hx => h hx.symm),
        if_neg (by rw [hk]; exact fun hx => h hx.symm)]
      exact ih
    · rw [dbSetWins, if_neg hk, dbFind, dbFind]
      split
      · rfl
      · exact ih

/-- C6: `checkAndRecordWin` increments the local win counter exactly once,
and only when the local identity's id equals the winner id; a null winner,
a logged-out user, or a non-matching id leaves the DB untouched.  The host
loop makes exactly one `checkAndRecordWin` call on a decisive round and
none on a tie; the guest makes exactly one on a `MATCH_END` message and
none on any other message type. -/
theorem C6_record_win_exactly_once (u : User) (w : String) (db : Db)
    (r0 : UserRecord) (q1 q2 : ℚ) (p1 p2 : Player) :
    (checkAndRecordWin (some u) none db = db) ∧
    (checkAndRecordWin none (some w) db = db) ∧
    (u.id ≠ w → checkAndRecordWin (some u) (some w) db = db) ∧
    (u.id = w → w ≠ "" → dbFind db u.name = some r0 →
      dbFind (checkAndRecordWin (some u) (some w) db) u.name =
        some { r0 with wins := some (r0.wins.getD 0 + 1) } ∧
      ∀ v, v ≠ u.name →
        dbFind (checkAndRecordWin (some u) (some w) db) v = dbFind db v) ∧
    (rollDie q1 ≠ rollDie q2 → p1.id ≠ "" → p2.id ≠ "" →
      (runGameLoopEffects true [p1, p2] q1 q2).countP LoopEff.isRecordWinCall
        = 1) ∧
    (rollDie q1 = rollDie q2 →
      (runGameLoopEffects true [p1, p2] q1 q2).countP LoopEff.isRecordWinCall
        = 0) ∧
    ((handleGuestMessage MsgType.MATCH_END (some w)).countP
        GuestMsgEff.isRecordWinCall = 1) ∧
    (∀ t, t ≠ MsgType.MATCH_END →
      (handleGuestMessage t (some w)).countP GuestMsgEff.isRecordWinCall
        = 0) := by
  refine ⟨?_, ?_, ?_, ?_, ?_, ?_, ?_, ?_⟩
  · simp [checkAndRecordWin, jsTruthyStr]
  · simp [checkAndRecordWin]
  · intro hne
    simp only [checkAndRecordWin]
    split_ifs with h1 h2
    · exact absurd (by simpa using h2) hne
    · rfl
    · rfl
  · intro hid hne hfind
    have hreach : checkAndRecordWin (some u) (some w) db =
        dbSetWins db u.name (r0.wins.getD 0 + 1) := by
      simp only [checkAndRecordWin]
      rw [if_neg (not_not_intro (jsTruthyStr_some w hne)),
        if_pos (by rw [hid]), hfind]
    rw [hreach]
    exact ⟨dbFind_dbSetWins_self db u.name _ r0 hfind,
      fun v hv => dbFind_dbSetWins_other db u.name v _ hv⟩
  · intro hne h1 h2
    unfold runGameLoopEffects
    rw [if_neg (by simp)]
    show (if jsTruthyStr (roundOutcome p1.id p2.id (rollDie q1) (rollDie q2)).1
        then _ else _ : List LoopEff).countP _ = 1
    rw [if_pos]
    · simp [List.countP_cons, LoopEff.isRecordWinCall]
    · unfold roundOutcome
      rcases lt_trichotomy (rollDie q1) (rollDie q2) with hlt | heq | hgt
      · rw [if_neg (by omega), if_pos hlt]
        simpa using jsTruthyStr_some p2.id h2
      · exact absurd heq hne
      · rw [if_pos hgt]
        simpa using jsTruthyStr_some p1.id h1
  · intro heq
    unfold runGameLoopEffects
    rw [if_neg (by simp)]
    show (if jsTruthyStr (roundOutcome p1.id p2.id (rollDie q1) (rollDie q2)).1
        then _ else _ : List LoopEff).countP _ = 0
    rw [if_neg]
    · simp [List.countP_cons, LoopEff.isRecordWinCall]
    · unfold roundOutcome
      rw [if_neg (by omega), if_neg (by omega)]
      simp [jsTruthyStr]
  · simp [handleGuestMessage, List.countP_cons, GuestMsgEff.isRecordWinCall]
  · intro t ht
    cases t <;>
      simp [handleGuestMessage, List.countP_cons,
        GuestMsgEff.isRecordWinCall] at ht ⊢

/-- Witness for C6 at a concrete winning session of user `"u1"`. -/
theorem C6_record_win_exactly_once_witness :
    dbFind
        (checkAndRecordWin (some ⟨"u1", "Al"⟩) (some "u1")
          [("Al", { id := "u1", password := "pw", wins := some 2 })]) "Al" =
      some { id := "u1", password := "pw", wins := some 3 } ∧
    (runGameLoopEffects true
        [{ id := "u1", name := "Al", score := 0, isSelf := true },
         { id := "u2", name := "Bo", score := 0, isSelf := false }]
        0 (1/2)).countP LoopEff.isRecordWinCall = 1 :=
  ⟨((C6_record_win_exactly_once ⟨"u1", "Al"⟩ "u1"
      [("Al", { id := "u1", password := "pw", wins := some 2 })]
      { id := "u1", password := "pw", wins := some 2 } 0 (1/2)
      { id := "u1", name := "Al", score := 0, isSelf := true }
      { id := "u2", name := "Bo", score := 0, isSelf := false }).2.2.2.1
      rfl (by decide) (by decide)).1,
   (C6_record_win_exactly_once ⟨"u1", "Al"⟩ "u1"
      [("Al", { id := "u1", password := "pw", wins := some 2 })]
      { id := "u1", password := "pw", wins := some 2 } 0 (1/2)
      { id := "u1", name := "Al", score := 0, isSelf := true }
      { id := "u2", name := "Bo", score := 0, isSelf := false }).2.2.2.2.1
      (by rw [rollDie_zero, rollDie_half]; decide) (by decide) (by decide)⟩

end DiceRoll
